import Mathlib

/-!
Shallow embedding of the PD (placement driver) Go client
(`pd-client/client.go`): cluster-id bootstrap, leader tracking, the
timestamp-batching loop, store lookup and address normalization.

External effects (rpc calls, dialing) are modelled as oracle functions
passed in as parameters; channels are modelled as lists (contents, FIFO)
or as buffered-slot counters where only occupancy matters.
-/

namespace PdClient

/-- Identifier standing for one `tsoRequest` object enqueued on `c.tsoRequests`. -/
abbrev ReqId := Nat

/-- The client's error values (`errors.New` values and wrapped rpc errors in client.go).
`transport`/`dialFail` carry an opaque code standing for the underlying error. -/
inductive PdError where
  | transport (code : Nat)
  | dialFail (code : Nat)
  | tsoLength
  | closing
  | failInitClusterID
  | storeFieldNotSet
  | noLeader (urls : List String)
  deriving DecidableEq, Repr

/-- `maxMergeTSORequests = 10000`: capacity of the `tsoRequests` channel. -/
def maxMergeTSORequests : Nat := 10000

/-- `maxInitClusterRetries = 100`: number of passes `initClusterID` makes. -/
def maxInitClusterRetries : Nat := 100

/-- `2^32`: the Go code casts `pendingCount+1` to `uint32` for the Tso rpc. -/
def uint32Mod : Nat := 2 ^ 32

/-- First `some` answer while scanning a url list (the shared `for _, u := range c.urls`
pattern of `initClusterID` and `updateLeader`: skip addresses that fail, act on the
first that answers). -/
def firstSome {α : Type} (f : String → Option α) : List String → Option α
  | [] => none
  | u :: us =>
    match f u with
    | some v => some v
    | none => firstSome f us

/-- The scheme separator `"://"` looked for by `strings.Contains(addr, "://")`. -/
def schemeSep : List Char := "://".toList

/-- `strings.Contains(addr, "://")`. -/
def containsSchemeSep (addr : String) : Bool := decide (schemeSep <:+: addr.toList)

/-- `addrsToUrls` (lines 341-352): prefix the default scheme `http://` to every
address that has no scheme separator; keep the others unchanged. -/
def addrsToUrls (addrs : List String) : List String :=
  addrs.map fun addr => if containsSchemeSep addr then addr else "http://" ++ addr

/-- The Tso rpc request message (`pdpb2.TsoRequest`): cluster id header and count. -/
structure TsoReqMsg where
  clusterId : Nat
  count : Nat
  deriving DecidableEq, Repr

/-- The Tso rpc response: reported count and the `(physical, logical)` high-water mark. -/
structure TsoResp where
  count : Nat
  physical : Int
  logical : Int
  deriving DecidableEq, Repr

/-- `finishTSORequest` (lines 244-247): record the assignment on the request and
deliver exactly one value (error or timestamp) on its done slot. -/
def finishTSORequest (req : ReqId) (physical logical : Int) (err : Option PdError) :
    ReqId × Except PdError (Int × Int) :=
  (req, match err with
        | some e => Except.error e
        | none => Except.ok (physical, logical))

/-- The success fan-out loop of `processTSORequests` (lines 238-241): for each further
request, decrement `logical` then finish it with `(physical, logical)`. -/
def assignRest (physical : Int) : Int → List ReqId → List (ReqId × Except PdError (Int × Int))
  | _, [] => []
  | logical, r :: rs =>
      finishTSORequest r physical (logical - 1) none :: assignRest physical (logical - 1) rs

/-- Lines 225-227: a transport error is kept; a successful rpc whose reported count
differs from the requested `uint32(pendingCount+1)` is replaced by `errTSOLength`. -/
def tsoRoundResult (pendingCount : Nat) (r : Except Nat TsoResp) : Except PdError TsoResp :=
  match r with
  | Except.error c => Except.error (PdError.transport c)
  | Except.ok resp =>
      if resp.count ≠ (pendingCount + 1) % uint32Mod then Except.error PdError.tsoLength
      else Except.ok resp

/-- One round of `processTSORequests` (lines 214-242).

`first` is the request already taken off the channel by `tsLoop`; `chan` is the
channel contents at the moment `len(c.tsoRequests)` is read; `later` are requests
enqueued after that snapshot (they sit behind `chan` in the FIFO channel). The
result is the single rpc issued plus the completion list, and the channel contents
left for the next round. -/
structure BatchResult where
  calls : List TsoReqMsg
  completions : List (ReqId × Except PdError (Int × Int))
  deriving Repr

def processTSORequests (clusterID : Nat) (first : ReqId) (chan later : List ReqId)
    (tso : TsoReqMsg → Except Nat TsoResp) : BatchResult × List ReqId :=
  let pendingCount := chan.length
  let msg : TsoReqMsg := ⟨clusterID, (pendingCount + 1) % uint32Mod⟩
  let received := (chan ++ later).take pendingCount
  let remaining := (chan ++ later).drop pendingCount
  match tsoRoundResult pendingCount (tso msg) with
  | Except.error e =>
      (⟨[msg], finishTSORequest first 0 0 (some e) ::
          received.map fun r => finishTSORequest r 0 0 (some e)⟩, remaining)
  | Except.ok resp =>
      (⟨[msg], finishTSORequest first resp.physical resp.logical none ::
          assignRest resp.physical resp.logical received⟩, remaining)

/-- The completion list produced by one round of `processTSORequests`. -/
def batchCompletions (clusterID : Nat) (first : ReqId) (chan later : List ReqId)
    (tso : TsoReqMsg → Except Nat TsoResp) : List (ReqId × Except PdError (Int × Int)) :=
  (processTSORequests clusterID first chan later tso).1.completions

/-- `tsLoop` (lines 201-212) over a script of rounds: each round is the `first`
request received plus the channel contents behind it; the loop processes every
round in turn (it never exits on a batch failure, only on `quit`). -/
def tsLoop (clusterID : Nat) (tso : TsoReqMsg → Except Nat TsoResp) :
    List (ReqId × List ReqId) → List (ReqId × Except PdError (Int × Int))
  | [] => []
  | (first, chan) :: rest =>
      batchCompletions clusterID first chan [] tso ++ tsLoop clusterID tso rest

/-- The drain loop of `Close` (lines 253-257), run after `close(c.quit)` and
`c.wg.Wait()`: read `n = len(c.tsoRequests)` and fail that many queued requests
with `errClosing`. -/
def closeDrain (chan : List ReqId) : List (ReqId × Except PdError (Int × Int)) :=
  let n := chan.length
  (chan.take n).map fun r => (r, Except.error PdError.closing)

/-- The leader-related fields of `client` guarded by `c.mu`: the connection
registry `clients` (here the list of connected addresses) and the current
`leader` address. -/
structure LeaderState where
  clients : List String
  leader : String
  deriving DecidableEq, Repr

/-- `switchLeader` (lines 162-182): if no connection exists for `addr`, dial it
(`grpc.Dial`, modelled by the `dial` oracle) and on success register it; then set
`c.leader = addr`. A dial failure is returned and the leader is not switched. -/
def switchLeader (dial : String → Except Nat Unit) (st : LeaderState) (addr : String) :
    Except PdError LeaderState :=
  if st.clients.contains addr then Except.ok { st with leader := addr }
  else
    match dial addr with
    | Except.error c => Except.error (PdError.dialFail c)
    | Except.ok _ => Except.ok { clients := addr :: st.clients, leader := addr }

/-- The body of `updateLeader`'s url scan (lines 140-158): the first address whose
`GetLeader` query answers (the `getLeader` oracle; `none` covers both a failed
`apiutil.NewClient` and a failed `GetLeader`) decides the outcome: if the reported
leader differs from the current one, switch to it, else succeed unchanged. -/
def updateLeaderFirst (getLeader : String → Option String) (dial : String → Except Nat Unit)
    (st : LeaderState) : List String → Option (Except PdError LeaderState)
  | [] => none
  | u :: us =>
    match getLeader u with
    | none => updateLeaderFirst getLeader dial st us
    | some addr =>
        some (if st.leader ≠ addr then switchLeader dial st addr else Except.ok st)

/-- `updateLeader` (lines 139-160): scan the url list; if no address answers,
return the `failed to get leader from ...` error carrying `c.urls`. -/
def updateLeader (getLeader : String → Option String) (dial : String → Except Nat Unit)
    (st : LeaderState) (urls : List String) : Except PdError LeaderState :=
  match updateLeaderFirst getLeader dial st urls with
  | some r => r
  | none => Except.error (PdError.noLeader urls)

/-- The pass recursion of `initClusterID` (lines 117-134): `i` is the current pass
index, the second `Nat` the remaining retry budget. The `fetch` oracle covers one
`apiutil.NewClient` + `GetClusterID` attempt against a url during pass `i`
(`none` when either step fails). A pass whose urls all fail is followed (after
the 1s sleep, not modelled) by the next pass. -/
def initClusterIDAux (fetch : Nat → String → Option Nat) (urls : List String) :
    Nat → Nat → Except PdError Nat
  | _, 0 => Except.error PdError.failInitClusterID
  | i, retries + 1 =>
    match firstSome (fetch i) urls with
    | some id => Except.ok id
    | none => initClusterIDAux fetch urls (i + 1) retries

/-- `initClusterID` (lines 116-137): up to `maxInitClusterRetries` passes starting
at pass 0; exhausting them returns `errFailInitClusterID`. -/
def initClusterID (fetch : Nat → String → Option Nat) (urls : List String) :
    Except PdError Nat :=
  initClusterIDAux fetch urls 0 maxInitClusterRetries

/-- The fields of a successfully constructed `client` that the constructor fills. -/
structure ClientState where
  urls : List String
  clusterID : Nat
  leaderState : LeaderState
  deriving Repr

/-- `NewClient` (lines 89-114): normalize the addresses, resolve the cluster id,
resolve the initial leader (starting from an empty registry and empty leader
address); fail with the underlying error if either step fails. -/
def NewClient (fetch : Nat → String → Option Nat) (getLeader : String → Option String)
    (dial : String → Except Nat Unit) (pdAddrs : List String) :
    Except PdError ClientState :=
  let urls := addrsToUrls pdAddrs
  match initClusterID fetch urls with
  | Except.error e => Except.error e
  | Except.ok cid =>
    match updateLeader getLeader dial ⟨[], ""⟩ urls with
    | Except.error e => Except.error e
    | Except.ok st => Except.ok ⟨urls, cid, st⟩

/-- Capacity of `checkLeaderCh` (`make(chan struct\x7b\x7d, 1)`, line 95). -/
def checkLeaderChCap : Nat := 1

/-- `scheduleCheckLeader` (lines 267-272): a `select` with a `default` branch on
the capacity-1 channel, acting on the number of buffered signals: enqueue the
signal if there is room, otherwise do nothing. The function is total — it never
waits. -/
def scheduleCheckLeader (pending : Nat) : Nat :=
  if pending < checkLeaderChCap then pending + 1 else pending

/-- `metapb.StoreState`. -/
inductive StoreState where
  | up
  | offline
  | tombstone
  deriving DecidableEq, Repr

/-- The fields of `metapb.Store` that `GetStore` inspects. -/
structure Store where
  id : Nat
  state : StoreState
  deriving DecidableEq, Repr

/-- `pdpb2.GetStoreResponse`: the store payload may be absent. -/
structure GetStoreResp where
  store : Option Store
  deriving DecidableEq, Repr

/-- `GetStore` (lines 317-339): rpc failure is propagated; a missing store payload
is the `store field in rpc response not set` error; a tombstoned store becomes
`(nil, nil)`, i.e. `ok none`; otherwise the store is returned. -/
def GetStore (rpc : Nat → Except Nat GetStoreResp) (storeID : Nat) :
    Except PdError (Option Store) :=
  match rpc storeID with
  | Except.error c => Except.error (PdError.transport c)
  | Except.ok resp =>
    match resp.store with
    | none => Except.error PdError.storeFieldNotSet
    | some s => if s.state = StoreState.tombstone then Except.ok none else Except.ok (some s)

/-- A buffered Go channel with no reader, described by its capacity and current
occupancy. -/
structure BufferedChan where
  capacity : Nat
  buffered : Nat
  deriving DecidableEq, Repr

/-- The completion slot created by `GetTS` (line 283): `done: make(chan error, 1)`
— capacity 1, empty. -/
def newTsoRequestDone : BufferedChan := ⟨1, 0⟩

/-- `n` sequential sends into a buffered channel complete without waiting, even if
no receiver ever reads, exactly when they fit into the spare buffer space. -/
def sendsWithoutBlocking (ch : BufferedChan) (n : Nat) : Bool :=
  decide (ch.buffered + n ≤ ch.capacity)

/-! ### Helper lemmas -/

theorem take_length_append {α : Type} (l₁ l₂ : List α) : (l₁ ++ l₂).take l₁.length = l₁ := by
  simp

theorem drop_length_append {α : Type} (l₁ l₂ : List α) : (l₁ ++ l₂).drop l₁.length = l₂ := by
  simp

theorem assignRest_length (physical : Int) (rs : List ReqId) :
    ∀ logical : Int, (assignRest physical logical rs).length = rs.length := by
  induction rs with
  | nil => intro logical; rfl
  | cons r rs ih => intro logical; simp [assignRest, finishTSORequest, ih]

theorem assignRest_getElem? (physical : Int) (rs : List ReqId) :
    ∀ (logical : Int) (i : Nat) (h : i < rs.length),
      (assignRest physical logical rs)[i]? =
        some (rs[i], Except.ok (physical, logical - (i + 1))) := by
  induction rs with
  | nil => intro logical i h; simp at h
  | cons r rs ih =>
    intro logical i h
    cases i with
    | zero => simp [assignRest, finishTSORequest]
    | succ j =>
      have hj : j < rs.length := by simpa using h
      have := ih (logical - 1) j hj
      have harith : logical - 1 - (j + 1) = logical - (j + 1 + 1) := by ring
      simp only [assignRest, List.getElem?_cons_succ, this, harith]
      simp [List.getElem_cons_succ]

theorem assignRest_map_fst (physical : Int) (rs : List ReqId) :
    ∀ logical : Int, (assignRest physical logical rs).map Prod.fst = rs := by
  induction rs with
  | nil => intro logical; rfl
  | cons r rs ih => intro logical; simp [assignRest, finishTSORequest, ih]

theorem batchCompletions_map_fst (clusterID : Nat) (first : ReqId) (chan later : List ReqId)
    (tso : TsoReqMsg → Except Nat TsoResp) :
    (batchCompletions clusterID first chan later tso).map Prod.fst = first :: chan := by
  unfold batchCompletions processTSORequests
  cases h : tsoRoundResult chan.length (tso ⟨clusterID, (chan.length + 1) % uint32Mod⟩) with
  | error e =>
      simp [h, finishTSORequest, take_length_append, Function.comp_def]
  | ok resp =>
      simp [h, finishTSORequest, take_length_append, assignRest_map_fst]

theorem batchCompletions_ok (clusterID : Nat) (first : ReqId) (chan later : List ReqId)
    (tso : TsoReqMsg → Except Nat TsoResp) (resp : TsoResp)
    (h : tsoRoundResult chan.length (tso ⟨clusterID, (chan.length + 1) % uint32Mod⟩) =
      Except.ok resp) :
    batchCompletions clusterID first chan later tso =
      finishTSORequest first resp.physical resp.logical none ::
        assignRest resp.physical resp.logical chan := by
  unfold batchCompletions processTSORequests
  simp [h, take_length_append]

theorem batchCompletions_error (clusterID : Nat) (first : ReqId) (chan later : List ReqId)
    (tso : TsoReqMsg → Except Nat TsoResp) (e : PdError)
    (h : tsoRoundResult chan.length (tso ⟨clusterID, (chan.length + 1) % uint32Mod⟩) =
      Except.error e) :
    batchCompletions clusterID first chan later tso =
      finishTSORequest first 0 0 (some e) ::
        chan.map fun r => finishTSORequest r 0 0 (some e) := by
  unfold batchCompletions processTSORequests
  simp [h, take_length_append]

/-! ### Claims -/

/-- C1: when the Tso rpc succeeds with the requested count and reports
`(physical, logicalMax)`, the batch of `k + 1` requests is completed so that
`first` receives exactly `(physical, logicalMax)` and the `i`-th subsequently
dequeued request (FIFO enqueue order) receives exactly `(physical, logicalMax - i)`
— a strictly decreasing, gap-free logical sequence starting at the server-reported
high-water mark, earlier requests receiving lexicographically greater pairs. -/
theorem tso_batch_assignment (clusterID : Nat) (first : ReqId) (chan later : List ReqId)
    (physical logical : Int) :
    (batchCompletions clusterID first chan later
        (fun _ => Except.ok ⟨(chan.length + 1) % uint32Mod, physical, logical⟩)).length
        = chan.length + 1 ∧
    (batchCompletions clusterID first chan later
        (fun _ => Except.ok ⟨(chan.length + 1) % uint32Mod, physical, logical⟩))[0]?
        = some (first, Except.ok (physical, logical)) ∧
    ∀ (i : Nat) (h : i < chan.length),
      (batchCompletions clusterID first chan later
          (fun _ => Except.ok ⟨(chan.length + 1) % uint32Mod, physical, logical⟩))[i + 1]?
        = some (chan[i], Except.ok (physical, logical - (i + 1))) := by
  have hok : tsoRoundResult chan.length
      ((fun _ => Except.ok ⟨(chan.length + 1) % uint32Mod, physical, logical⟩ :
        TsoReqMsg → Except Nat TsoResp) ⟨clusterID, (chan.length + 1) % uint32Mod⟩) =
      Except.ok ⟨(chan.length + 1) % uint32Mod, physical, logical⟩ := by
    simp [tsoRoundResult]
  rw [batchCompletions_ok clusterID first chan later _ _ hok]
  refine ⟨?_, ?_, ?_⟩
  · simp [assignRest_length, finishTSORequest]
  · simp [finishTSORequest]
  · intro i h
    simpa using assignRest_getElem? physical chan logical i h

/-- Concrete instance of C1: 5 requests against a server answer `(100, 9)` receive
`(100,9), (100,8), (100,7), (100,6), (100,5)` in enqueue order. -/
theorem tso_batch_assignment_witness :
    (batchCompletions 7 0 [1, 2, 3, 4] []
        (fun _ => Except.ok ⟨(([1, 2, 3, 4] : List ReqId).length + 1) % uint32Mod, 100, 9⟩))[3 + 1]?
      = some (4, Except.ok (100, 5)) := by
  have h := (tso_batch_assignment 7 0 [1, 2, 3, 4] [] 100 9).2.2 3 (by decide)
  simpa using h

/-- C2: one batch round issues exactly one Tso rpc, whose `Count` field is
`k + 1` where `k` is the snapshot length of the queue at the moment
`len(c.tsoRequests)` is read (the queue never exceeds the channel capacity
`maxMergeTSORequests`, so the `uint32` cast is exact); the requests served are
precisely `first` plus that snapshot, and requests enqueued after the snapshot
(`later`) are left on the queue untouched. -/
theorem tso_batch_snapshot (clusterID : Nat) (first : ReqId) (chan later : List ReqId)
    (tso : TsoReqMsg → Except Nat TsoResp) (hcap : chan.length ≤ maxMergeTSORequests) :
    (processTSORequests clusterID first chan later tso).1.calls =
      [⟨clusterID, chan.length + 1⟩] ∧
    (batchCompletions clusterID first chan later tso).map Prod.fst = first :: chan ∧
    (processTSORequests clusterID first chan later tso).2 = later := by
  have hmod : (chan.length + 1) % uint32Mod = chan.length + 1 := by
    have h1 : chan.length + 1 ≤ 10001 := by
      unfold maxMergeTSORequests at hcap; omega
    exact Nat.mod_eq_of_lt (Nat.lt_of_le_of_lt h1 (by norm_num [uint32Mod]))
  refine ⟨?_, batchCompletions_map_fst clusterID first chan later tso, ?_⟩
  · dsimp only [processTSORequests]
    rw [hmod]
    cases h : tsoRoundResult chan.length (tso ⟨clusterID, chan.length + 1⟩) with
    | error e => simp [h]
    | ok resp => simp [h]
  · dsimp only [processTSORequests]
    cases h : tsoRoundResult chan.length (tso ⟨clusterID, (chan.length + 1) % uint32Mod⟩) with
    | error e => simp [h, drop_length_append]
    | ok resp => simp [h, drop_length_append]

/-- Concrete instance of C2: with snapshot `[1, 2]` behind `first = 0` and one
late arrival `9`, the single rpc asks for 3 timestamps, requests `0, 1, 2` are the
batch, and `9` stays queued. -/
theorem tso_batch_snapshot_witness :
    (processTSORequests 7 0 [1, 2] [9] (fun _ => Except.error 0)).1.calls = [⟨7, 3⟩] ∧
    (batchCompletions 7 0 [1, 2] [9] (fun _ => Except.error 0)).map Prod.fst = 0 :: [1, 2] ∧
    (processTSORequests 7 0 [1, 2] [9] (fun _ => Except.error 0)).2 = [9] :=
  tso_batch_snapshot 7 0 [1, 2] [9] (fun _ => Except.error 0) (by decide)

/-- C3: when the Tso round fails — a transport error, or a success whose reported
count differs from the requested `k + 1` (turned into `errTSOLength`) — every one
of the `k + 1` requests of the batch snapshot is completed with that same error,
none receives a timestamp, and the consumer loop goes on to serve the following
rounds. -/
theorem tso_batch_failure (clusterID : Nat) (first : ReqId) (chan later : List ReqId)
    (tso : TsoReqMsg → Except Nat TsoResp) (e : PdError)
    (hfail : tsoRoundResult chan.length (tso ⟨clusterID, (chan.length + 1) % uint32Mod⟩) =
      Except.error e) :
    (batchCompletions clusterID first chan later tso).length = chan.length + 1 ∧
    (∀ p ∈ batchCompletions clusterID first chan later tso, p.2 = Except.error e) ∧
    (∀ resp, tso ⟨clusterID, (chan.length + 1) % uint32Mod⟩ = Except.ok resp →
      resp.count ≠ (chan.length + 1) % uint32Mod ∧ e = PdError.tsoLength) ∧
    (∀ c, tso ⟨clusterID, (chan.length + 1) % uint32Mod⟩ = Except.error c →
      e = PdError.transport c) ∧
    (∀ rounds, tsLoop clusterID tso ((first, chan) :: rounds) =
      batchCompletions clusterID first chan [] tso ++ tsLoop clusterID tso rounds) := by
  rw [batchCompletions_error clusterID first chan later tso e hfail]
  refine ⟨?_, ?_, ?_, ?_, ?_⟩
  · simp [finishTSORequest]
  · intro p hp
    rcases List.mem_cons.mp hp with h | h
    · subst h; rfl
    · rcases List.mem_map.mp h with ⟨r, _, rfl⟩; rfl
  · intro resp hr
    rw [hr] at hfail
    unfold tsoRoundResult at hfail
    by_cases hc : resp.count = (chan.length + 1) % uint32Mod
    · simp [hc] at hfail
    · simp [hc] at hfail
      exact ⟨hc, hfail.symm⟩
  · intro c hc
    rw [hc] at hfail
    unfold tsoRoundResult at hfail
    simpa using hfail.symm
  · intro rounds
    rfl

/-- Concrete instance of C3: a transport error (code 3) on a batch of 3 requests
fails all 3 with the same wrapped error. -/
theorem tso_batch_failure_witness :
    (batchCompletions 7 0 [1, 2] [] (fun _ => Except.error 3)).length =
      ([1, 2] : List ReqId).length + 1 ∧
    ∀ p ∈ batchCompletions 7 0 [1, 2] [] (fun _ => Except.error 3),
      p.2 = Except.error (PdError.transport 3) := by
  have h := tso_batch_failure 7 0 [1, 2] [] (fun _ => Except.error 3)
    (PdError.transport 3) rfl
  exact ⟨h.1, h.2.1⟩

/-- C4: the drain step of `Close` (run after signalling `quit` and joining the two
background loops) completes every request still sitting in the pending queue with
the `errClosing` error — the drained list covers the whole queue, so no queued
caller is left blocked. -/
theorem close_drains_pending (chan : List ReqId) :
    closeDrain chan = chan.map (fun r => (r, Except.error PdError.closing)) ∧
    (closeDrain chan).length = chan.length ∧
    ∀ r ∈ chan, (r, Except.error PdError.closing) ∈ closeDrain chan := by
  have h : closeDrain chan = chan.map fun r => (r, Except.error PdError.closing) := by
    unfold closeDrain
    simp
  refine ⟨h, ?_, ?_⟩
  · rw [h]; simp
  · intro r hr; rw [h]; exact List.mem_map.mpr ⟨r, hr, rfl⟩

/-- Concrete instance of C4: request 5 left queued at shutdown receives `errClosing`. -/
theorem close_drains_pending_witness :
    ((5 : ReqId), (Except.error PdError.closing : Except PdError (Int × Int))) ∈
      closeDrain [4, 5] :=
  (close_drains_pending [4, 5]).2.2 5 (by decide)

/-- C7: `scheduleCheckLeader` never waits (it is a total step function on the
signal count) and is a no-op when a signal is already pending: the capacity-1
channel holds at most one signal after any number of schedule calls, and 5
back-to-back failures starting from an empty channel leave exactly one pending
recheck. -/
theorem schedule_check_leader_coalesces :
    (∀ pending, pending ≤ checkLeaderChCap →
      scheduleCheckLeader pending ≤ checkLeaderChCap) ∧
    scheduleCheckLeader checkLeaderChCap = checkLeaderChCap ∧
    (∀ n, scheduleCheckLeader^[n] 0 ≤ checkLeaderChCap) ∧
    scheduleCheckLeader^[5] 0 = 1 := by
  have hstep : ∀ p, p ≤ checkLeaderChCap → scheduleCheckLeader p ≤ checkLeaderChCap := by
    intro p hp
    unfold scheduleCheckLeader checkLeaderChCap at *
    split <;> omega
  refine ⟨hstep, rfl, ?_, rfl⟩
  intro n
  induction n with
  | zero => simp [checkLeaderChCap]
  | succ m ih =>
    rw [Function.iterate_succ_apply']
    exact hstep _ ih

/-- Concrete instance of C7: scheduling on an empty channel leaves at most one
pending signal. -/
theorem schedule_check_leader_coalesces_witness :
    scheduleCheckLeader 0 ≤ checkLeaderChCap :=
  schedule_check_leader_coalesces.1 0 (by decide)

/-- C8: a successful `GetStore` round trip returning a tombstoned store yields
`ok none` (no result, no error); a response with the store payload missing yields
the `store field in rpc response not set` error; any other store is returned. -/
theorem get_store_mapping (rpc : Nat → Except Nat GetStoreResp) (storeID : Nat) :
    (∀ s, rpc storeID = Except.ok ⟨some s⟩ → s.state = StoreState.tombstone →
      GetStore rpc storeID = Except.ok none) ∧
    (rpc storeID = Except.ok ⟨none⟩ →
      GetStore rpc storeID = Except.error PdError.storeFieldNotSet) ∧
    (∀ s, rpc storeID = Except.ok ⟨some s⟩ → s.state ≠ StoreState.tombstone →
      GetStore rpc storeID = Except.ok (some s)) := by
  refine ⟨?_, ?_, ?_⟩
  · intro s h hts
    unfold GetStore
    rw [h]
    simp [hts]
  · intro h
    unfold GetStore
    rw [h]
  · intro s h hts
    unfold GetStore
    rw [h]
    simp [hts]

/-- Concrete instance of C8: a tombstoned store is reported as absent. -/
theorem get_store_mapping_witness :
    GetStore (fun _ => Except.ok ⟨some ⟨1, StoreState.tombstone⟩⟩) 1 = Except.ok none :=
  (get_store_mapping (fun _ => Except.ok ⟨some ⟨1, StoreState.tombstone⟩⟩) 1).1
    ⟨1, StoreState.tombstone⟩ rfl rfl

/-- C9: within a batch, every request (the requests being distinct objects) is
completed exactly once, and the completion slot created by `GetTS` is a capacity-1
buffered channel with a spare slot, so the single delivery goes through without
waiting even if the caller never reads it. -/
theorem tso_request_single_completion (clusterID : Nat) (first : ReqId)
    (chan later : List ReqId) (tso : TsoReqMsg → Except Nat TsoResp)
    (hnodup : (first :: chan).Nodup) :
    (∀ r ∈ first :: chan,
      ((batchCompletions clusterID first chan later tso).map Prod.fst).count r = 1) ∧
    sendsWithoutBlocking newTsoRequestDone 1 = true := by
  refine ⟨?_, rfl⟩
  intro r hr
  rw [batchCompletions_map_fst]
  exact List.count_eq_one_of_mem hnodup hr

/-- Concrete instance of C9: request 2 of the batch `0, 1, 2` is completed exactly
once even on a failing round, and the fresh done slot has buffer room for it. -/
theorem tso_request_single_completion_witness :
    ((batchCompletions 7 0 [1, 2] [] (fun _ => Except.error 0)).map Prod.fst).count 2 = 1 ∧
    sendsWithoutBlocking newTsoRequestDone 1 = true := by
  have h := tso_request_single_completion 7 0 [1, 2] [] (fun _ => Except.error 0) (by decide)
  exact ⟨h.1 2 (by decide), h.2⟩

/-- C10: `addrsToUrls` preserves the length and order of its input; an address
containing the scheme separator `://` passes through unchanged and one without it
is prefixed with the default scheme `http://`. -/
theorem addrs_to_urls_normalization (addrs : List String) :
    (addrsToUrls addrs).length = addrs.length ∧
    ∀ (i : Nat) (h : i < addrs.length),
      (addrsToUrls addrs)[i]? =
        some (if containsSchemeSep addrs[i] then addrs[i] else "http://" ++ addrs[i]) := by
  constructor
  · simp [addrsToUrls]
  · intro i h
    simp [addrsToUrls, List.getElem?_eq_getElem h]

/-- Concrete instance of C10: `a` gains the default scheme, `x://b` is unchanged. -/
theorem addrs_to_urls_normalization_witness :
    (addrsToUrls ["a", "x://b"])[0]? = some "http://a" ∧
    (addrsToUrls ["a", "x://b"])[1]? = some "x://b" := by
  have h0 := (addrs_to_urls_normalization ["a", "x://b"]).2 0 (by decide)
  have h1 := (addrs_to_urls_normalization ["a", "x://b"]).2 1 (by decide)
  simp only [List.getElem_cons_zero, List.getElem_cons_succ] at h0 h1
  rw [show containsSchemeSep "a" = false from by decide] at h0
  rw [show containsSchemeSep "x://b" = true from by decide] at h1
  exact ⟨by simpa using h0, by simpa using h1⟩

theorem updateLeaderFirst_eq (getLeader : String → Option String)
    (dial : String → Except Nat Unit) (st : LeaderState) (urls : List String) :
    updateLeaderFirst getLeader dial st urls =
      (firstSome getLeader urls).map fun addr =>
        if st.leader ≠ addr then switchLeader dial st addr else Except.ok st := by
  induction urls with
  | nil => rfl
  | cons u us ih =>
    unfold updateLeaderFirst firstSome
    cases getLeader u with
    | none => simpa using ih
    | some addr => rfl

/-- C5 counterexample: a single address `u1` does answer the leader query,
reporting leader `b`; the current leader is `a`, no connection to `b` exists and
dialing `b` fails — `updateLeader` then returns the dial error, refuting the
claim that it errors only when no address answers. -/
theorem resolve_leader_counterexample :
    (fun u => if u = "u1" then some "b" else none) "u1" = some "b" ∧
    updateLeader (fun u => if u = "u1" then some "b" else none)
      (fun _ => Except.error 0) ⟨[], "a"⟩ ["u1"] =
      Except.error (PdError.dialFail 0) := by
  exact ⟨by simp, rfl⟩

/-- C5 amended: `updateLeader` returns the `failed to get leader` error when no
address answers the leader query; otherwise the first answer `L` decides the
call: it succeeds — leaving the state unchanged when `L` already is the leader,
else atomically switching to `L` and registering a connection if none exists —
except that when `L` is a different, unconnected leader and dialing it fails,
that dial error is returned. -/
theorem resolve_leader_amended (getLeader : String → Option String)
    (dial : String → Except Nat Unit) (st : LeaderState) (urls : List String) :
    (firstSome getLeader urls = none →
      updateLeader getLeader dial st urls = Except.error (PdError.noLeader urls)) ∧
    (∀ L, firstSome getLeader urls = some L →
      (L = st.leader ∨ st.clients.contains L = true ∨ dial L = Except.ok ()) →
      ∃ st', updateLeader getLeader dial st urls = Except.ok st' ∧ st'.leader = L ∧
        (L ≠ st.leader → st'.clients.contains L = true)) ∧
    (∀ L c, firstSome getLeader urls = some L → L ≠ st.leader →
      st.clients.contains L = false → dial L = Except.error c →
      updateLeader getLeader dial st urls = Except.error (PdError.dialFail c)) := by
  refine ⟨?_, ?_, ?_⟩
  · intro h
    unfold updateLeader
    rw [updateLeaderFirst_eq, h]
    rfl
  · intro L hL hcond
    unfold updateLeader
    rw [updateLeaderFirst_eq, hL]
    by_cases heq : st.leader = L
    · refine ⟨st, ?_, heq, fun hne => absurd heq.symm hne⟩
      show (if st.leader ≠ L then switchLeader dial st L else Except.ok st) = Except.ok st
      rw [if_neg (not_not_intro heq)]
    · by_cases hc : st.clients.contains L = true
      · refine ⟨{ st with leader := L }, ?_, rfl, fun _ => hc⟩
        show (if st.leader ≠ L then switchLeader dial st L else Except.ok st) =
          Except.ok { st with leader := L }
        rw [if_pos heq]
        unfold switchLeader
        rw [if_pos hc]
      · rcases hcond with h1 | h1 | h1
        · exact absurd h1.symm heq
        · exact absurd h1 hc
        · refine ⟨⟨L :: st.clients, L⟩, ?_, rfl, fun _ => by simp⟩
          show (if st.leader ≠ L then switchLeader dial st L else Except.ok st) =
            Except.ok ⟨L :: st.clients, L⟩
          rw [if_pos heq]
          unfold switchLeader
          rw [if_neg hc, h1]
  · intro L c hL hne hc hdial
    unfold updateLeader
    rw [updateLeaderFirst_eq, hL]
    show (if st.leader ≠ L then switchLeader dial st L else Except.ok st) =
      Except.error (PdError.dialFail c)
    rw [if_pos (Ne.symm hne)]
    unfold switchLeader
    rw [if_neg (by rw [hc]; exact Bool.false_ne_true), hdial]

/-- Concrete instance of the amended C5: the reported leader `b` differs from the
current `a`, dialing succeeds, and the call switches to `b` and connects it. -/
theorem resolve_leader_amended_witness :
    ∃ st', updateLeader (fun _ => some "b") (fun _ => Except.ok ()) ⟨[], "a"⟩ ["u1"] =
      Except.ok st' ∧ st'.leader = "b" ∧
      ("b" ≠ "a" → st'.clients.contains "b" = true) :=
  (resolve_leader_amended (fun _ => some "b") (fun _ => Except.ok ())
    ⟨[], "a"⟩ ["u1"]).2.1 "b" rfl (Or.inr (Or.inr rfl))

theorem initClusterIDAux_all_fail (fetch : Nat → String → Option Nat)
    (urls : List String) :
    ∀ (retries i : Nat), (∀ j, j < retries → firstSome (fetch (i + j)) urls = none) →
      initClusterIDAux fetch urls i retries = Except.error PdError.failInitClusterID := by
  intro retries
  induction retries with
  | zero => intro i _; rfl
  | succ m ih =>
    intro i h
    have h0 : firstSome (fetch i) urls = none := by simpa using h 0 (by omega)
    unfold initClusterIDAux
    rw [h0]
    refine ih (i + 1) fun j hj => ?_
    have hh := h (j + 1) (by omega)
    rw [show i + 1 + j = i + (j + 1) from by omega]
    exact hh

/-- C6: cluster-id bootstrap adopts the first successfully fetched id within a
pass and stops; if every address fails in every one of the 100 passes, the result
is the fatal `errFailInitClusterID` and `NewClient` fails with it, so no client is
constructed; and with three addresses of which only the third answers 42,
construction succeeds with cluster id 42. -/
theorem cluster_id_bootstrap (fetch : Nat → String → Option Nat)
    (getLeader : String → Option String) (dial : String → Except Nat Unit)
    (urls pdAddrs : List String) :
    (∀ id, firstSome (fetch 0) urls = some id →
      initClusterID fetch urls = Except.ok id) ∧
    ((∀ i, i < maxInitClusterRetries → firstSome (fetch i) urls = none) →
      initClusterID fetch urls = Except.error PdError.failInitClusterID) ∧
    (∀ e, initClusterID fetch (addrsToUrls pdAddrs) = Except.error e →
      NewClient fetch getLeader dial pdAddrs = Except.error e) ∧
    (∃ cs, NewClient (fun _ u => if u = "http://c" then some 42 else none)
        (fun _ => some "http://c") (fun _ => Except.ok ()) ["a", "b", "c"] =
        Except.ok cs ∧ cs.clusterID = 42) := by
  refine ⟨?_, ?_, ?_, ?_⟩
  · intro id h
    unfold initClusterID
    rw [show maxInitClusterRetries = 99 + 1 from rfl]
    unfold initClusterIDAux
    rw [h]
  · intro h
    exact initClusterIDAux_all_fail fetch urls maxInitClusterRetries 0
      fun j hj => by simpa using h j hj
  · intro e h
    dsimp only [NewClient]
    rw [h]
  · exact ⟨_, rfl, rfl⟩

/-- Concrete instance of C6: only the third address answers (with 42); the first
pass adopts 42. -/
theorem cluster_id_bootstrap_witness :
    initClusterID (fun _ u => if u = "c" then some 42 else none) ["a", "b", "c"] =
      Except.ok 42 :=
  (cluster_id_bootstrap (fun _ u => if u = "c" then some 42 else none)
    (fun _ => none) (fun _ => Except.ok ()) ["a", "b", "c"] []).1 42 rfl

end PdClient
